import Mathlib

/-!
Verification of the sportspickmind prediction/validation/tuning core.

JavaScript numbers are modelled as exact rationals (ℚ); integer quantities
(scores, ids, timestamps in milliseconds) as ℤ or ℕ.  The JS helpers
Math.floor / Math.round / Number.toFixed are modelled exactly on ℚ:
Math.round x = ⌊x + 1/2⌋ and toFixed(k) rounds to k decimal places the
same way (all values rounded here are nonnegative or far from the
half-to-even subtleties of binary floating point, so the rational model
agrees with the JS float behaviour on every input used below).
-/

/-- JS Math.floor on a number. -/
def jsFloor (x : ℚ) : ℤ := ⌊x⌋

/-- JS Math.round: round half toward positive infinity. -/
def jsRound (x : ℚ) : ℚ := (jsFloor (x + 1/2) : ℤ)

/-- Math.round(x*10)/10, the one-decimal rounding used throughout the source. -/
def round1 (x : ℚ) : ℚ := (jsFloor (x * 10 + 1/2) : ℤ) / 10

/-- toFixed(2) on a nonnegative number, reparsed with parseFloat. -/
def round2 (x : ℚ) : ℚ := (jsFloor (x * 100 + 1/2) : ℤ) / 100

/-- toFixed(3) on a nonnegative number, reparsed with parseFloat. -/
def round3 (x : ℚ) : ℚ := (jsFloor (x * 1000 + 1/2) : ℤ) / 1000

/-- JS Math.min on two numbers (equal to min on ℚ, spelled with an if so
concrete values reduce by computation). -/
def jsMin (a b : ℚ) : ℚ := if a ≤ b then a else b

/-- JS Math.max on two numbers (equal to max on ℚ). -/
def jsMax (a b : ℚ) : ℚ := if a ≤ b then b else a

/-- JS Math.abs (equal to |·| on ℚ). -/
def jsAbs (x : ℚ) : ℚ := if x < 0 then -x else x

/-! ## Travel fatigue (dataAdapter.js, calculateTravelFatigue) -/

/-- Result record of calculateTravelFatigue.  The source also returns the
placeholder fields estimated_miles and time_zones_crossed, both always 0. -/
structure FatigueResult where
  days_rest : ℤ
  games_in_last_week : ℕ
  back_to_back : Bool
  fatigue_score : ℤ
  estimated_miles : ℤ
  time_zones_crossed : ℤ
  deriving DecidableEq, Repr

/-- Milliseconds per day, the divisor used by the source. -/
def msPerDay : ℤ := 86400000

/-- The if/else-if chain assigning the base fatigue contribution from
daysSinceLastGame (source lines: same day 10, 1 day 7, 2 days 4, 3 days 2,
otherwise 0). -/
def fatigueBase (daysSince : ℤ) : ℤ :=
  if daysSince = 0 then 10
  else if daysSince = 1 then 7
  else if daysSince = 2 then 4
  else if daysSince = 3 then 2
  else 0

/-- The fatigue-score computation of calculateTravelFatigue factored out:
base from the step table, then fatigueScore += Math.min(3, gamesLastWeek - 2),
then the clamp Math.min(10, Math.max(0, fatigueScore)) applied when the
record is built. -/
def fatigueScoreCalc (daysSince : ℤ) (gamesLastWeek : ℕ) : ℤ :=
  min 10 (max 0 (fatigueBase daysSince + min 3 ((gamesLastWeek : ℤ) - 2)))

/-- calculateTravelFatigue.  The database fetch is factored out: gameTimes is
the list of epoch-millisecond timestamps of the (at most 5) most recent
final games, most recent first, exactly as getTeamRecentGames returns them;
currentTime is the reference time (Date.now() or the target game date). -/
def calculateTravelFatigue (gameTimes : List ℤ) (currentTime : ℤ) : FatigueResult :=
  match gameTimes with
  | [] =>
    { days_rest := 7, games_in_last_week := 0, back_to_back := false,
      fatigue_score := 0, estimated_miles := 0, time_zones_crossed := 0 }
  | lastGameTime :: _ =>
    let daysSinceLastGame : ℤ := Int.fdiv (currentTime - lastGameTime) msPerDay
    let oneWeekAgo : ℤ := currentTime - 7 * msPerDay
    let gamesLastWeek : ℕ := (gameTimes.filter (fun t => oneWeekAgo < t)).length
    { days_rest := daysSinceLastGame,
      games_in_last_week := gamesLastWeek,
      back_to_back := decide (daysSinceLastGame ≤ 1),
      fatigue_score := fatigueScoreCalc daysSinceLastGame gamesLastWeek,
      estimated_miles := 0,
      time_zones_crossed := 0 }

/-- The fatigue formula exactly as claim C3 words it: step table plus one
point per game beyond 2 in the trailing week, no adjustment at 2 or fewer
games, clamped to the 0..10 range. -/
def fatigueSpecClaimed (daysRest : ℤ) (gamesLastWeek : ℕ) : ℤ :=
  min 10 (max 0 (fatigueBase daysRest +
    (if 2 < gamesLastWeek then (gamesLastWeek : ℤ) - 2 else 0)))

/-- The amended fatigue formula: step table plus (games − 2) capped above at
3 — a quantity that is negative, a rest bonus, when fewer than 2 games were
played in the trailing week — clamped to the 0..10 range. -/
def fatigueSpecAmended (daysRest : ℤ) (gamesLastWeek : ℕ) : ℤ :=
  min 10 (max 0 (fatigueBase daysRest + min 3 ((gamesLastWeek : ℤ) - 2)))

/-! ## Team form (dataAdapter.js, calculateTeamForm) -/

/-- A row of the games table as transformGame presents it, restricted to the
fields calculateTeamForm reads. -/
structure GameRow where
  home_team : ℕ
  away_team : ℕ
  home_score : ℤ
  away_score : ℤ
  deriving DecidableEq, Repr

/-- Result record of calculateTeamForm.  In the zero-games branch the source
object carries no last_5_wins key; the embedding uses 0 there. -/
structure FormResult where
  games_played : ℕ
  wins : ℕ
  losses : ℕ
  win_percentage : ℚ
  avg_points_scored : ℚ
  avg_points_allowed : ℚ
  point_differential : ℚ
  form_score : ℚ
  momentum : String
  last_5_wins : ℕ
  deriving DecidableEq, Repr

/-- Score of the given team in a game row (home or away side). -/
def teamScoreIn (teamId : ℕ) (g : GameRow) : ℤ :=
  if g.home_team = teamId then g.home_score else g.away_score

/-- Score of the opponent of the given team in a game row. -/
def oppScoreIn (teamId : ℕ) (g : GameRow) : ℤ :=
  if g.home_team = teamId then g.away_score else g.home_score

/-- calculateTeamForm.  The database fetch is factored out: recentGames is
the list of (at most gameCount = 10) most recent final games, most recent
first.  The forEach accumulation of the source is expressed with filters and
sums over the same list; recentWins counts wins among the first 5 entries
(index < 5). -/
def calculateTeamForm (teamId : ℕ) (recentGames : List GameRow) : FormResult :=
  match recentGames with
  | [] =>
    { games_played := 0, wins := 0, losses := 0, win_percentage := 1/2,
      avg_points_scored := 0, avg_points_allowed := 0, point_differential := 0,
      form_score := 5, momentum := "unknown", last_5_wins := 0 }
  | _ :: _ =>
    let wins := (recentGames.filter (fun g => oppScoreIn teamId g < teamScoreIn teamId g)).length
    let recentWins :=
      ((recentGames.take 5).filter (fun g => oppScoreIn teamId g < teamScoreIn teamId g)).length
    let totalPointsScored : ℤ := (recentGames.map (teamScoreIn teamId)).sum
    let totalPointsAllowed : ℤ := (recentGames.map (oppScoreIn teamId)).sum
    let gamesPlayed := recentGames.length
    let winPercentage : ℚ := (wins : ℚ) / (gamesPlayed : ℚ)
    let avgScored : ℚ := (totalPointsScored : ℚ) / (gamesPlayed : ℚ)
    let avgAllowed : ℚ := (totalPointsAllowed : ℚ) / (gamesPlayed : ℚ)
    let pointDiff : ℚ := avgScored - avgAllowed
    let formScore : ℚ :=
      winPercentage * 5 + (jsMin (jsMax (pointDiff / 10) (-(5/2))) (5/2) + 5/2) +
        ((recentWins : ℚ) / 5 * 2)
    let momentum : String :=
      if 4 ≤ recentWins then "hot"
      else if 3 ≤ recentWins then "positive"
      else if recentWins ≤ 1 then "cold"
      else "neutral"
    { games_played := gamesPlayed,
      wins := wins,
      losses := gamesPlayed - wins,
      win_percentage := (jsFloor (winPercentage * 1000 + 1/2) : ℤ) / 1000,
      avg_points_scored := round1 avgScored,
      avg_points_allowed := round1 avgAllowed,
      point_differential := round1 pointDiff,
      form_score := jsMin 10 (jsMax 0 (round1 formScore)),
      momentum := momentum,
      last_5_wins := recentWins }

/-- The form score exactly as claim C5 words it, as a function of the
aggregates it names: 5·win_pct + clamp((avg_for − avg_against)/10, −2.5, 2.5)
+ 2.5 + 2·(recent_wins_last_5/5), clamped to the 0..10 range (no rounding). -/
def formSpecClaimed (winPct avgFor avgAgainst : ℚ) (recentWins5 : ℕ) : ℚ :=
  jsMin 10 (jsMax 0
    (5 * winPct + jsMin (jsMax ((avgFor - avgAgainst) / 10) (-(5/2))) (5/2) + 5/2 +
      2 * ((recentWins5 : ℚ) / 5)))

/-- The amended form score: the same formula rounded to one decimal place
before the clamp to the 0..10 range. -/
def formSpecAmended (winPct avgFor avgAgainst : ℚ) (recentWins5 : ℕ) : ℚ :=
  jsMin 10 (jsMax 0 (round1
    (5 * winPct + jsMin (jsMax ((avgFor - avgAgainst) / 10) (-(5/2))) (5/2) + 5/2 +
      2 * ((recentWins5 : ℚ) / 5))))

/-- Win percentage of a team over a list of games (wins / games played),
the aggregate named by claim C5. -/
def winPctOf (teamId : ℕ) (games : List GameRow) : ℚ :=
  ((games.filter (fun g => oppScoreIn teamId g < teamScoreIn teamId g)).length : ℚ) /
    (games.length : ℚ)

/-- Average points scored by a team over a list of games. -/
def avgForOf (teamId : ℕ) (games : List GameRow) : ℚ :=
  ((games.map (teamScoreIn teamId)).sum : ℚ) / (games.length : ℚ)

/-- Average points allowed by a team over a list of games. -/
def avgAgainstOf (teamId : ℕ) (games : List GameRow) : ℚ :=
  ((games.map (oppScoreIn teamId)).sum : ℚ) / (games.length : ℚ)

/-- Wins among the 5 most recent games of the list. -/
def recentWins5Of (teamId : ℕ) (games : List GameRow) : ℕ :=
  ((games.take 5).filter (fun g => oppScoreIn teamId g < teamScoreIn teamId g)).length

/-- Concrete three-game schedule for team 1: two one-point wins and one
loss, with equal points scored and allowed overall. -/
def exGamesC5 : List GameRow :=
  [ { home_team := 1, away_team := 2, home_score := 10, away_score := 9 },
    { home_team := 1, away_team := 2, home_score := 10, away_score := 9 },
    { home_team := 1, away_team := 2, home_score := 8, away_score := 10 } ]

/-! ## Prediction validator (predictionValidator.js, runPredictionValidation) -/

/-- A row of the validator SELECT: an ai_predictions_enhanced row joined with
the final scores and status of its game.  recent models the
created_at >= datetime(now, -7 days) filter evaluated at run time. -/
structure PredRow where
  id : ℕ
  game_id : ℕ
  game_status : String
  recent : Bool
  home_team_id : ℕ
  away_team_id : ℕ
  home_score : ℤ
  away_score : ℤ
  predicted_winner_team_id : ℕ
  predicted_spread : Option ℚ
  confidence_score : ℚ
  sport : Option String
  actual_outcome : Option ℕ
  was_correct : Option Bool
  margin_of_error : Option ℚ
  validated_at : Bool
  deriving DecidableEq, Repr

/-- A row of the prediction_accuracy table as the validator inserts it. -/
structure AccuracyRow where
  prediction_id : ℕ
  game_id : ℕ
  predicted_winner : ℕ
  actual_winner : ℕ
  prediction_correct : Bool
  confidence_level : ℚ
  margin_of_error : ℚ
  sport : String
  deriving DecidableEq, Repr

/-- Database state touched by the validator: the joined prediction rows and
the prediction_accuracy table. -/
structure ValidatorState where
  predictions : List PredRow
  accuracy : List AccuracyRow
  deriving DecidableEq, Repr

/-- Counts reported by one validation run. -/
structure ValidationReport where
  validated : ℕ
  correct : ℕ
  incorrect : ℕ
  deriving DecidableEq, Repr

/-- The WHERE clause of the validator SELECT: game status final or completed,
actual_outcome still NULL, prediction created within the 7-day lookback. -/
def eligibleForValidation (p : PredRow) : Bool :=
  (p.game_status = "final" || p.game_status = "completed") &&
    p.actual_outcome.isNone && p.recent

/-- actualWinner of the source: home_score > away_score picks the home team,
otherwise (including a tied score) the away team. -/
def actualWinnerCalc (p : PredRow) : ℕ :=
  if p.away_score < p.home_score then p.home_team_id else p.away_team_id

/-- wasCorrect of the source: actual winner equals predicted winner. -/
def wasCorrectCalc (p : PredRow) : Bool :=
  actualWinnerCalc p = p.predicted_winner_team_id

/-- marginOfError of the source: |actualSpread − predictedSpread| with
predicted_spread || 0 turning a NULL spread into 0. -/
def marginOfErrorCalc (p : PredRow) : ℚ :=
  jsAbs (((p.home_score : ℚ) - (p.away_score : ℚ)) - p.predicted_spread.getD 0)

/-- The UPDATE ... WHERE id = pred.id applied to one stored row. -/
def validatedUpdate (p q : PredRow) : PredRow :=
  if q.id = p.id then
    { q with
      actual_outcome := some (actualWinnerCalc p),
      was_correct := some (wasCorrectCalc p),
      margin_of_error := some (marginOfErrorCalc p),
      validated_at := true }
  else q

/-- One loop iteration: run the UPDATE for prediction p over every stored row. -/
def applyValidation (preds : List PredRow) (p : PredRow) : List PredRow :=
  preds.map (validatedUpdate p)

/-- The INSERT INTO prediction_accuracy for one validated prediction
(sport || with the unknown default). -/
def accuracyRowFor (p : PredRow) : AccuracyRow :=
  { prediction_id := p.id,
    game_id := p.game_id,
    predicted_winner := p.predicted_winner_team_id,
    actual_winner := actualWinnerCalc p,
    prediction_correct := wasCorrectCalc p,
    confidence_level := p.confidence_score,
    margin_of_error := marginOfErrorCalc p,
    sport := p.sport.getD "unknown" }

/-- runPredictionValidation: select the eligible rows (LIMIT 100), validate
each in order (UPDATE the prediction, INSERT an accuracy row), and report the
counts. -/
def runPredictionValidation (s : ValidatorState) : ValidatorState × ValidationReport :=
  let selected := (s.predictions.filter eligibleForValidation).take 100
  ({ predictions := selected.foldl applyValidation s.predictions,
     accuracy := s.accuracy ++ selected.map accuracyRowFor },
   { validated := selected.length,
     correct := (selected.filter wasCorrectCalc).length,
     incorrect := (selected.filter (fun p => !(wasCorrectCalc p))).length })

/-- The aggregate accuracy statistics of the validator SELECT over
prediction_accuracy: total count, correct count, average confidence and
average margin of error (the || 0 default on an empty table coincides with
rational division by zero). -/
def aggregateStats (s : ValidatorState) : ℚ × ℚ × ℚ × ℚ :=
  let total : ℚ := (s.accuracy.length : ℚ)
  let correct : ℚ := ((s.accuracy.filter (fun r => r.prediction_correct)).length : ℚ)
  let avgConfidence : ℚ := (s.accuracy.map (fun r => r.confidence_level)).sum / total
  let avgError : ℚ := (s.accuracy.map (fun r => r.margin_of_error)).sum / total
  (total, correct, avgConfidence, avgError)

/-- was_correct exactly as claim C6 words it: the winner by score comparison
must equal the predicted winner, and a tied final score makes neither team
correct. -/
def wasCorrectSpecClaimed (p : PredRow) : Bool :=
  if p.away_score < p.home_score then p.predicted_winner_team_id = p.home_team_id
  else if p.home_score < p.away_score then p.predicted_winner_team_id = p.away_team_id
  else false

/-- was_correct as amended: the home team is the actual winner exactly when
home_score > away_score, otherwise — including a tied score — the away team
is deemed the actual winner. -/
def wasCorrectSpecAmended (p : PredRow) : Bool :=
  if p.away_score < p.home_score then p.predicted_winner_team_id = p.home_team_id
  else p.predicted_winner_team_id = p.away_team_id

/-- A prediction row on a game that ended in a 3–3 tie, predicting the away
team (team 2). -/
def tiePredC6 : PredRow :=
  { id := 1, game_id := 1, game_status := "final", recent := true,
    home_team_id := 1, away_team_id := 2, home_score := 3, away_score := 3,
    predicted_winner_team_id := 2, predicted_spread := some (-2),
    confidence_score := 70, sport := some "nba",
    actual_outcome := none, was_correct := none, margin_of_error := none,
    validated_at := false }

/-- A pending prediction row with the given id, used to build validator
states of any size. -/
def mkPendingPred (i : ℕ) : PredRow :=
  { id := i, game_id := i, game_status := "final", recent := true,
    home_team_id := 1, away_team_id := 2, home_score := 3, away_score := 1,
    predicted_winner_team_id := 1, predicted_spread := none,
    confidence_score := 70, sport := none,
    actual_outcome := none, was_correct := none, margin_of_error := none,
    validated_at := false }

/-- A validator state with 101 pending eligible predictions — one more than
the batch limit of a single run. -/
def state101 : ValidatorState :=
  { predictions := (List.range 101).map mkPendingPred, accuracy := [] }

/-- A validator state with a single pending eligible prediction. -/
def state1 : ValidatorState :=
  { predictions := [mkPendingPred 0], accuracy := [] }

/-! ## Weight tuner (predictionValidator.js weight tuner, runWeightTuning) -/

/-- The seven factors tracked by factorPerformance. -/
inductive Factor where
  | team_form
  | player_stats
  | injuries
  | travel_fatigue
  | head_to_head
  | home_advantage
  | rest_differential
  deriving DecidableEq, Repr

/-- The factors in the object-key order of the source. -/
def allFactors : List Factor :=
  [Factor.team_form, Factor.player_stats, Factor.injuries, Factor.travel_fatigue,
   Factor.head_to_head, Factor.home_advantage, Factor.rest_differential]

/-- The hardcoded currentWeights table of the tuner. -/
def currentWeights : Factor → ℚ
  | Factor.team_form => 15/100
  | Factor.player_stats => 20/100
  | Factor.injuries => 18/100
  | Factor.travel_fatigue => 12/100
  | Factor.head_to_head => 10/100
  | Factor.home_advantage => 8/100
  | Factor.rest_differential => 7/100

/-- The features JSON of a stored prediction, restricted to the keys the
tuner inspects; a missing key is none. -/
structure FeatMap where
  home_team_form : Option ℚ
  away_team_form : Option ℚ
  home_player_advantage : Option ℚ
  away_player_advantage : Option ℚ
  home_injury_impact : Option ℚ
  away_injury_impact : Option ℚ
  home_fatigue : Option ℚ
  away_fatigue : Option ℚ
  h2h_advantage : Option ℚ
  home_court_advantage : Option ℚ
  rest_advantage : Option ℚ
  deriving DecidableEq, Repr

/-- Whether a prediction contributes to a factor: the undefined-checks
guarding each factorPerformance block of the source. -/
def featPresent (f : Factor) (m : FeatMap) : Bool :=
  match f with
  | Factor.team_form => m.home_team_form.isSome && m.away_team_form.isSome
  | Factor.player_stats => m.home_player_advantage.isSome && m.away_player_advantage.isSome
  | Factor.injuries => m.home_injury_impact.isSome && m.away_injury_impact.isSome
  | Factor.travel_fatigue => m.home_fatigue.isSome && m.away_fatigue.isSome
  | Factor.head_to_head => m.h2h_advantage.isSome
  | Factor.home_advantage => m.home_court_advantage.isSome
  | Factor.rest_differential => m.rest_advantage.isSome

/-- A row of the tuner SELECT: a stored prediction (features IS NOT NULL)
joined with its prediction_accuracy row. -/
structure TuningRow where
  prediction_correct : Bool
  features : FeatMap
  deriving DecidableEq, Repr

/-- Database state touched by the tuner: the joined rows within the 30-day
lookback and the system_logs table (log_type, message pairs).  The tuner
never writes weights anywhere — currentWeights is a hardcoded constant. -/
structure TuningState where
  rows : List TuningRow
  systemLogs : List (String × String)
  deriving DecidableEq, Repr

/-- The per-factor accuracy percentage of factorAccuracy: none when no
prediction carried the factor (count = 0), otherwise
(correct / count * 100).toFixed(2). -/
def factorAccuracyOf (rows : List TuningRow) (f : Factor) : Option ℚ :=
  let relevant := rows.filter (fun r => featPresent f r.features)
  if relevant.length = 0 then none
  else some (round2 (((relevant.filter (fun r => r.prediction_correct)).length : ℚ) /
    (relevant.length : ℚ) * 100))

/-- totalAccuracy: the sum of the per-factor accuracies (absent factors
contribute nothing). -/
def totalAccuracy (acc : Factor → Option ℚ) : ℚ :=
  (allFactors.map (fun f => (acc f).getD 0)).sum

/-- The clamped pre-normalization weight of one factor:
currentWeight + (accuracy/totalAccuracy − currentWeight)·0.3, clamped by
Math.max(0.02, Math.min(0.30, ·)).  Only meaningful for present factors
and when totalAccuracy is nonzero (the source divides by totalAccuracy). -/
def preNormWeight (acc : Factor → Option ℚ) (f : Factor) : ℚ :=
  match acc f with
  | none => 0
  | some a =>
    jsMax (2/100) (jsMin (30/100)
      (currentWeights f + (a / totalAccuracy acc - currentWeights f) * (3/10)))

/-- The list of present factors, in object-key order. -/
def presentFactors (acc : Factor → Option ℚ) : List Factor :=
  allFactors.filter (fun f => (acc f).isSome)

/-- weightSum: the sum of the clamped weights over the present factors. -/
def preNormSum (acc : Factor → Option ℚ) : ℚ :=
  ((presentFactors acc).map (preNormWeight acc)).sum

/-- The emitted optimizedWeights map: each clamped weight divided by
weightSum and passed through toFixed(3).  When totalAccuracy is 0 the JS
division yields NaN and every emitted entry is the string NaN; that
degenerate outcome carries no numeric weights and is modelled as none. -/
def emittedWeights (acc : Factor → Option ℚ) : Option (List (Factor × ℚ)) :=
  if totalAccuracy acc = 0 then none
  else some ((presentFactors acc).map
    (fun f => (f, round3 (preNormWeight acc f / preNormSum acc))))

/-- Result record of runWeightTuning, restricted to the outputs the claims
examine (the factor-accuracy breakdown and recommendation list also returned
by the source are not modelled). -/
structure TuningOutcome where
  success : Bool
  message : Option String
  predictions_analyzed : ℕ
  minimum_required : Option ℕ
  optimized_weights : Option (List (Factor × ℚ))
  deriving DecidableEq, Repr

/-- runWeightTuning: below 20 analyzed predictions it returns the
insufficient-data result before any write; otherwise it derives the factor
accuracies, computes the optimized weights and appends a weight_tuning row
to system_logs. -/
def runWeightTuning (s : TuningState) : TuningState × TuningOutcome :=
  if s.rows.length < 20 then
    (s, { success := true,
          message := some "Insufficient data for tuning",
          predictions_analyzed := s.rows.length,
          minimum_required := some 20,
          optimized_weights := none })
  else
    let facc := factorAccuracyOf s.rows
    let ow := emittedWeights facc
    ({ rows := s.rows,
       systemLogs := s.systemLogs ++
         [("weight_tuning", "Analyzed predictions and optimized weights")] },
     { success := true,
       message := none,
       predictions_analyzed := s.rows.length,
       minimum_required := none,
       optimized_weights := ow })

/-- The accuracy distribution of the C1 counterexample: three factors
present, each with accuracy 50 percent. -/
def accC1 : Factor → Option ℚ
  | Factor.team_form => some 50
  | Factor.player_stats => some 50
  | Factor.injuries => some 50
  | _ => none

/-- A trivial tuning row (prediction correct, every feature key present). -/
def rowC8 : TuningRow :=
  { prediction_correct := true,
    features :=
      { home_team_form := some 5, away_team_form := some 5,
        home_player_advantage := some 5, away_player_advantage := some 5,
        home_injury_impact := some 0, away_injury_impact := some 0,
        home_fatigue := some 0, away_fatigue := some 0,
        h2h_advantage := some 5, home_court_advantage := some 5,
        rest_advantage := some 0 } }

/-- A tuning state holding 15 validated predictions — below the threshold. -/
def state15 : TuningState :=
  { rows := List.replicate 15 rowC8, systemLogs := [] }

/-! ## Advanced prediction engine (advancedPredictionEngine, part_003) -/

/-- The feature vector assembled by generatePrediction.  Every numeric
signal is present (the upstream helpers return neutral defaults rather than
null), so the hasValidData checks of calculateConfidence are true here. -/
structure Features where
  home_team_form : ℚ
  away_team_form : ℚ
  home_player_advantage : ℚ
  away_player_advantage : ℚ
  home_injury_impact : ℚ
  away_injury_impact : ℚ
  home_fatigue : ℚ
  away_fatigue : ℚ
  h2h_advantage : ℚ
  home_court_advantage : ℚ
  rest_advantage : ℚ
  weather_impact : ℚ
  home_sentiment : ℚ
  away_sentiment : ℚ
  sharp_money_indicator : String
  line_value : ℚ
  deriving DecidableEq, Repr

/-- The sequential accumulation of the home-advantage differential in
calculateWeightedPrediction: start at 50, add each feature term in source
order, then clamp once with Math.max(0, Math.min(100, ·)). -/
def homeAdvantageScore (f : Features) : ℚ :=
  let h0 : ℚ := 50
  let h1 := h0 + (f.home_team_form - f.away_team_form) * 3
  let h2 := h1 + (f.home_player_advantage - f.away_player_advantage) * 4
  let h3 := h2 + (f.away_injury_impact - f.home_injury_impact) * (36/10)
  let h4 := h3 + (f.away_fatigue - f.home_fatigue) * (24/10)
  let h5 := h4 + f.h2h_advantage * 2
  let h6 := h5 + f.home_court_advantage * (16/10)
  let h7 := h6 + f.rest_advantage * (14/10)
  let h8 := h7 + f.weather_impact * (6/10)
  let h9 := h8 + (f.home_sentiment - f.away_sentiment) * (4/10)
  let h10 :=
    if f.sharp_money_indicator = "home" then h9 + 10
    else if f.sharp_money_indicator = "away" then h9 - 10
    else h9
  jsMax 0 (jsMin 100 h10)

/-- The differential exactly as claim C7 words it: one clamp, applied after
all additions, of 50 plus every per-feature gain term, with the injury and
fatigue differences inverted. -/
def specHomeDifferential (f : Features) : ℚ :=
  jsMax 0 (jsMin 100
    (50 + (f.home_team_form - f.away_team_form) * 3
        + (f.home_player_advantage - f.away_player_advantage) * 4
        + (f.away_injury_impact - f.home_injury_impact) * (36/10)
        + (f.away_fatigue - f.home_fatigue) * (24/10)
        + f.h2h_advantage * 2
        + f.home_court_advantage * (16/10)
        + f.rest_advantage * (14/10)
        + f.weather_impact * (6/10)
        + (f.home_sentiment - f.away_sentiment) * (4/10)
        + (if f.sharp_money_indicator = "home" then (10 : ℚ)
           else if f.sharp_money_indicator = "away" then -10
           else 0)))

/-- Sport-specific baseline scores and variance of predictScores. -/
def sportBaselines (sport : String) : ℚ × ℚ × ℚ :=
  if sport.toLower = "nba" then (110, 105, 15)
  else if sport.toLower = "nfl" then (24, 21, 7)
  else if sport.toLower = "mlb" then (9/2, 4, 2)
  else (100, 95, 10)

/-- predictScores: baselines shifted by (homeWinProb − 0.5)·variance·2 and
adjusted by form, injury and fatigue, floored at 0. -/
def predictScores (sport : String) (homeWinProb : ℚ) (f : Features) : ℚ × ℚ :=
  let b := sportBaselines sport
  let baseHome := b.1
  let baseAway := b.2.1
  let variance := b.2.2
  let probDiff := homeWinProb - 1/2
  let scoreAdjustment := probDiff * variance * 2
  let homeScore := baseHome + scoreAdjustment + (f.home_team_form - 5) * (variance / 5)
    - f.home_injury_impact * (variance / 10) - f.home_fatigue * (variance / 10)
  let awayScore := baseAway - scoreAdjustment + (f.away_team_form - 5) * (variance / 5)
    - f.away_injury_impact * (variance / 10) - f.away_fatigue * (variance / 10)
  (jsMax 0 homeScore, jsMax 0 awayScore)

/-- Result record of calculateWeightedPrediction. -/
structure WeightedPrediction where
  winner : String
  homeWinProbability : ℚ
  awayWinProbability : ℚ
  homeScore : ℚ
  awayScore : ℚ
  spread : ℚ
  total : ℚ
  deriving DecidableEq, Repr

/-- calculateWeightedPrediction: accumulate the differential, convert to the
home-win probability homeAdvantage/100, pick the winner by
homeWinProb > 0.5, and derive scores, spread and total. -/
def calculateWeightedPrediction (sport : String) (f : Features) : WeightedPrediction :=
  let homeAdvantage := homeAdvantageScore f
  let homeWinProb := homeAdvantage / 100
  let awayWinProb := 1 - homeWinProb
  let scores := predictScores sport homeWinProb f
  let homeScore := scores.1
  let awayScore := scores.2
  let spread := homeScore - awayScore
  { winner := if 1/2 < homeWinProb then "home" else "away",
    homeWinProbability := jsRound (homeWinProb * 100),
    awayWinProbability := jsRound (awayWinProb * 100),
    homeScore := jsRound homeScore,
    awayScore := jsRound awayScore,
    spread := round1 spread,
    total := jsRound (homeScore + awayScore) }

/-- Game fields read by generatePrediction and the fallback path. -/
structure GameInfo where
  id : ℕ
  homeTeamId : ℕ
  awayTeamId : ℕ
  homeTeam : String
  awayTeam : String
  sport : String
  deriving DecidableEq, Repr

/-- The stored prediction record, restricted to the fields the claims
examine.  Fields absent from the fallback object (score predictions, the
features payload) are Options; the full record also carries per-factor
confidences, key factors and risk figures that no claim references. -/
structure PredictionRecord where
  game_id : ℕ
  predicted_winner_team_id : ℕ
  predicted_winner_name : String
  confidence_score : ℚ
  predicted_home_score : Option ℚ
  predicted_away_score : Option ℚ
  predicted_spread : ℚ
  predicted_total_score : Option ℚ
  ai_model : String
  model_version : String
  features : Option Features
  deriving DecidableEq, Repr

/-- calculateConfidence restricted to its overall output.  With a total
feature vector every hasValidData check succeeds, so the individual
confidences are the constants 85, 90, 80, 85, 75, 70, 85, 80 of the source
and dataQuality is their mean. -/
def calculateConfidence (pred : WeightedPrediction) : ℚ :=
  let predictionStrength := jsAbs (pred.homeWinProbability - 50) / 50
  let dataQuality : ℚ := (85 + 90 + 80 + 85 + 75 + 70 + 85 + 80) / 8
  let overall := jsRound (dataQuality * (6/10) + predictionStrength * 100 * (4/10))
  jsMin 95 (jsMax 60 overall)

/-- generateFallbackPrediction: confidence Math.floor(r1·20)+65, spread
r2·10−5, winner by the sign of the spread, tagged Fallback Statistical
Model / 1.0.0, no features payload.  r1 and r2 are the two Math.random()
draws, each in the half-open unit interval. -/
def generateFallbackPrediction (game : GameInfo) (r1 r2 : ℚ) : PredictionRecord :=
  let confidence : ℚ := ((jsFloor (r1 * 20) : ℤ) : ℚ) + 65
  let spread : ℚ := r2 * 10 - 5
  { game_id := game.id,
    predicted_winner_team_id := if 0 < spread then game.homeTeamId else game.awayTeamId,
    predicted_winner_name := if 0 < spread then game.homeTeam else game.awayTeam,
    confidence_score := confidence,
    predicted_home_score := none,
    predicted_away_score := none,
    predicted_spread := round1 spread,
    predicted_total_score := none,
    ai_model := "Fallback Statistical Model",
    model_version := "1.0.0",
    features := none }

/-- generatePrediction: the feature pipeline either delivers a feature
vector or fails entirely (the try/catch); on failure the catch returns
generateFallbackPrediction instead of propagating the error. -/
def generatePrediction (game : GameInfo) (pipeline : Option Features)
    (r1 r2 : ℚ) : PredictionRecord :=
  match pipeline with
  | none => generateFallbackPrediction game r1 r2
  | some f =>
    let prediction := calculateWeightedPrediction game.sport f
    { game_id := game.id,
      predicted_winner_team_id :=
        if prediction.winner = "home" then game.homeTeamId else game.awayTeamId,
      predicted_winner_name :=
        if prediction.winner = "home" then game.homeTeam else game.awayTeam,
      confidence_score := calculateConfidence prediction,
      predicted_home_score := some prediction.homeScore,
      predicted_away_score := some prediction.awayScore,
      predicted_spread := prediction.spread,
      predicted_total_score := some prediction.total,
      ai_model := "Advanced Ensemble v2.0",
      model_version := "2.0.0",
      features := some f }

/-- The weight-tuning SELECT keeps only predictions whose features column is
not NULL; a record without a features payload is excluded from tuning. -/
def tuningEligible (p : PredictionRecord) : Bool :=
  p.features.isSome

/-- An entirely neutral feature vector: every pairwise difference zero and
every single-valued contribution zero, sharp money neutral. -/
def neutralFeatures : Features :=
  { home_team_form := 5, away_team_form := 5,
    home_player_advantage := 5, away_player_advantage := 5,
    home_injury_impact := 0, away_injury_impact := 0,
    home_fatigue := 0, away_fatigue := 0,
    h2h_advantage := 0, home_court_advantage := 0,
    rest_advantage := 0, weather_impact := 0,
    home_sentiment := 5, away_sentiment := 5,
    sharp_money_indicator := "neutral", line_value := 0 }

/-- A concrete game used by the engine witnesses. -/
def exGame : GameInfo :=
  { id := 42, homeTeamId := 1, awayTeamId := 2,
    homeTeam := "Home", awayTeam := "Away", sport := "nba" }

/-- The cumulative effect of running the UPDATE of every selected prediction
(in order) on one stored row: the row-level view of the validation loop. -/
def rowAfter (sel : List PredRow) (q : PredRow) : PredRow :=
  sel.foldl (fun r p => validatedUpdate p r) q

/-! ## Theorems -/

/-- C3 counterexample: a team whose only recent game was 3.5 days before the
target game has days_rest = 3 and one game in the trailing week; the code
yields fatigue_score 1 (the penalty term is min(3, 1−2) = −1), while the
step table plus no adjustment claimed for 2 or fewer games gives 2. -/
theorem fatigue_penalty_counterexample :
    (calculateTravelFatigue [0] 302400000).days_rest = 3 ∧
    (calculateTravelFatigue [0] 302400000).games_in_last_week = 1 ∧
    (calculateTravelFatigue [0] 302400000).fatigue_score = 1 ∧
    fatigueSpecClaimed 3 1 = 2 ∧
    (calculateTravelFatigue [0] 302400000).fatigue_score ≠
      fatigueSpecClaimed (calculateTravelFatigue [0] 302400000).days_rest
        (calculateTravelFatigue [0] 302400000).games_in_last_week := by
  decide

/-- C3 (amended): for every schedule input the fatigue score equals the
days-rest step table value plus (games_in_last_7_days − 2) capped above at
+3 — an adjustment that is negative when fewer than 2 games were played —
clamped to the 0..10 range. -/
theorem fatigue_amended (gameTimes : List ℤ) (currentTime : ℤ) :
    (calculateTravelFatigue gameTimes currentTime).fatigue_score =
      fatigueSpecAmended (calculateTravelFatigue gameTimes currentTime).days_rest
        (calculateTravelFatigue gameTimes currentTime).games_in_last_week := by
  cases gameTimes with
  | nil => exact (by decide : (0 : ℤ) = fatigueSpecAmended 7 0)
  | cons t rest => rfl

/-- C4: the fatigue score is monotone — fewer days of rest (holding the
trailing-week game count fixed) never decreases it, and more games in the
trailing week (holding days of rest fixed) never decreases it. -/
theorem fatigue_monotone (d1 d2 : ℤ) (g1 g2 : ℕ) (hd0 : 0 ≤ d2) (hd : d2 ≤ d1)
    (hg : g1 ≤ g2) : fatigueScoreCalc d1 g1 ≤ fatigueScoreCalc d2 g2 := by
  unfold fatigueScoreCalc fatigueBase
  split_ifs <;> omega

/-- C4 witness: dropping days of rest from 2 to 1 with 3 trailing-week games
does not decrease the fatigue score. -/
theorem fatigue_monotone_witness :
    (0 : ℤ) ≤ 1 ∧ fatigueScoreCalc 2 3 ≤ fatigueScoreCalc 1 3 :=
  ⟨by decide, fatigue_monotone 2 1 3 3 (by decide) (by decide) (le_refl 3)⟩

/-- C7: the home-advantage differential equals 50 plus the per-feature gain
terms (injury and fatigue inverted), clamped to the 0..100 range exactly once
after all additions, and the home-win probability driving the winner choice
and the emitted percentage is the clamped differential divided by 100. -/
theorem differential_spec (sport : String) (f : Features) :
    homeAdvantageScore f = specHomeDifferential f ∧
    (calculateWeightedPrediction sport f).winner =
      (if 1/2 < specHomeDifferential f / 100 then "home" else "away") ∧
    (calculateWeightedPrediction sport f).homeWinProbability =
      jsRound (specHomeDifferential f / 100 * 100) := by
  have h : homeAdvantageScore f = specHomeDifferential f := by
    simp only [homeAdvantageScore, specHomeDifferential]
    split_ifs <;> first
      | rfl
      | (congr 1; congr 1; ring)
  refine ⟨h, ?_, ?_⟩ <;> simp only [calculateWeightedPrediction, h]

/-- C8: invoked with fewer than 20 validated predictions in the lookback
window, the tuner returns the explicit insufficient-data result as a normal
success, writes nothing, and proposes no weights (the current weights, a
hardcoded constant, are untouched). -/
theorem tuner_insufficient_data (s : TuningState) (h : s.rows.length < 20) :
    runWeightTuning s =
      (s, { success := true,
            message := some "Insufficient data for tuning",
            predictions_analyzed := s.rows.length,
            minimum_required := some 20,
            optimized_weights := none }) := by
  unfold runWeightTuning
  rw [if_pos h]

/-- C8 witness: with exactly 15 validated predictions the tuner returns the
insufficient-data result and the state is unchanged. -/
theorem tuner_insufficient_data_witness :
    runWeightTuning state15 =
      (state15, { success := true,
                  message := some "Insufficient data for tuning",
                  predictions_analyzed := 15,
                  minimum_required := some 20,
                  optimized_weights := none }) := by
  rw [tuner_insufficient_data state15 (by decide)]
  rfl

/-- C10: the home team is the predicted winner exactly when the home-win
probability is strictly greater than one half; at a clamped differential of
exactly 50 the away team is declared the winner. -/
theorem tie_probability_predicts_away (sport : String) (f : Features) :
    ((calculateWeightedPrediction sport f).winner = "home" ↔
      1/2 < homeAdvantageScore f / 100) ∧
    (homeAdvantageScore f = 50 →
      (calculateWeightedPrediction sport f).winner = "away") := by
  constructor
  · simp only [calculateWeightedPrediction]
    split_ifs with hlt
    · simpa using hlt
    · simpa using hlt
  · intro h50
    simp only [calculateWeightedPrediction, h50]
    norm_num

/-- C10 witness: an entirely neutral feature vector yields the clamped
differential exactly 50, and the away team is the predicted winner. -/
theorem tie_probability_predicts_away_witness :
    homeAdvantageScore neutralFeatures = 50 ∧
    (calculateWeightedPrediction "nba" neutralFeatures).winner = "away" := by
  have h50 : homeAdvantageScore neutralFeatures = 50 := by
    norm_num [homeAdvantageScore, neutralFeatures]
    decide
  exact ⟨h50, (tie_probability_predicts_away "nba" neutralFeatures).2 h50⟩

/-- C5 counterexample: for a three-game schedule with 2 wins and equal
points for and against, the code rounds the form score to one decimal
(6.6) while the formula of the claim yields 199/30 = 6.6333…, so the
claimed exact equation fails. -/
theorem form_rounding_counterexample :
    (calculateTeamForm 1 exGamesC5).games_played = 3 ∧
    winPctOf 1 exGamesC5 = 2/3 ∧
    avgForOf 1 exGamesC5 = 28/3 ∧
    avgAgainstOf 1 exGamesC5 = 28/3 ∧
    recentWins5Of 1 exGamesC5 = 2 ∧
    (calculateTeamForm 1 exGamesC5).form_score = 33/5 ∧
    formSpecClaimed (2/3) (28/3) (28/3) 2 = 199/30 ∧
    (calculateTeamForm 1 exGamesC5).form_score ≠
      formSpecClaimed (winPctOf 1 exGamesC5) (avgForOf 1 exGamesC5)
        (avgAgainstOf 1 exGamesC5) (recentWins5Of 1 exGamesC5) := by
  norm_num [calculateTeamForm, exGamesC5, teamScoreIn, oppScoreIn, winPctOf,
    avgForOf, avgAgainstOf, recentWins5Of, formSpecClaimed, jsMin, jsMax,
    round1, jsFloor]

/-- C5 (amended): the form score is the claimed formula rounded to one
decimal place before the clamp to the 0..10 range, and with zero games
played the neutral defaults win_pct = 0.5, form_score = 5.0 and momentum
unknown are returned (the computation is total and never fails). -/
theorem form_amended (teamId : ℕ) (games : List GameRow) :
    (calculateTeamForm teamId games).form_score =
      (if games.isEmpty then 5
       else formSpecAmended (winPctOf teamId games) (avgForOf teamId games)
        (avgAgainstOf teamId games) (recentWins5Of teamId games)) ∧
    (games = [] →
      (calculateTeamForm teamId games).win_percentage = 1/2 ∧
      (calculateTeamForm teamId games).form_score = 5 ∧
      (calculateTeamForm teamId games).momentum = "unknown") := by
  cases games with
  | nil => exact ⟨rfl, fun _ => ⟨rfl, rfl, rfl⟩⟩
  | cons g gs =>
    refine ⟨?_, by simp⟩
    simp only [calculateTeamForm, formSpecAmended, List.isEmpty_cons,
      Bool.false_eq_true, if_false]
    congr 3
    unfold winPctOf avgForOf avgAgainstOf recentWins5Of
    ring

/-- C5 witness: at the empty schedule the amended theorem yields the neutral
defaults. -/
theorem form_amended_witness :
    (calculateTeamForm 1 ([] : List GameRow)).form_score = 5 ∧
    (calculateTeamForm 1 ([] : List GameRow)).win_percentage = 1/2 ∧
    (calculateTeamForm 1 ([] : List GameRow)).momentum = "unknown" := by
  have h := form_amended 1 ([] : List GameRow)
  exact ⟨(h.2 rfl).2.1, (h.2 rfl).1, (h.2 rfl).2.2⟩

/-- C6 counterexample: a game that ended 3–3 with the away team predicted.
The code deems the away team the actual winner and marks the prediction
correct, while the claim says a tied score makes neither team correct. -/
theorem tie_scored_correct_counterexample :
    tiePredC6.home_score = tiePredC6.away_score ∧
    tiePredC6.predicted_winner_team_id = tiePredC6.away_team_id ∧
    wasCorrectCalc tiePredC6 = true ∧
    wasCorrectSpecClaimed tiePredC6 = false ∧
    ((runPredictionValidation { predictions := [tiePredC6], accuracy := [] }
      ).1.predictions.map (fun p => p.was_correct)) = [some true] := by
  decide

/-- C6 (amended): the validator sets was_correct to true exactly when the
predicted winner equals the actual winner, where the home team is the actual
winner iff home_score > away_score and otherwise — a tied score included —
the away team is deemed the winner; and it sets
margin_of_error = |actual_spread − predicted_spread| with
actual_spread = home_score − away_score and a missing spread read as 0. -/
theorem validation_outcome_amended (p q : PredRow) :
    wasCorrectCalc p = wasCorrectSpecAmended p ∧
    (q.id = p.id →
      (validatedUpdate p q).actual_outcome =
        some (if p.away_score < p.home_score then p.home_team_id
              else p.away_team_id) ∧
      (validatedUpdate p q).was_correct = some (wasCorrectSpecAmended p) ∧
      (validatedUpdate p q).margin_of_error =
        some |((p.home_score : ℚ) - (p.away_score : ℚ)) -
          p.predicted_spread.getD 0|) := by
  have habs : ∀ x : ℚ, jsAbs x = |x| := by
    intro x
    rw [jsAbs]
    rcases lt_or_le x 0 with h | h
    · rw [if_pos h, abs_of_neg h]
    · rw [if_neg (not_lt.mpr h), abs_of_nonneg h]
  have hwc : wasCorrectCalc p = wasCorrectSpecAmended p := by
    unfold wasCorrectCalc wasCorrectSpecAmended actualWinnerCalc
    by_cases h : p.away_score < p.home_score <;> simp [h, eq_comm]
  refine ⟨hwc, fun hid => ?_⟩
  have h1 : validatedUpdate p q =
      { q with
        actual_outcome := some (actualWinnerCalc p),
        was_correct := some (wasCorrectCalc p),
        margin_of_error := some (marginOfErrorCalc p),
        validated_at := true } := by
    unfold validatedUpdate
    rw [if_pos hid]
  rw [h1]
  exact ⟨rfl, congrArg some hwc,
    congrArg some (by unfold marginOfErrorCalc; rw [habs])⟩

/-- C6 witness: the amended outcome evaluated on the tie-game row. -/
theorem validation_outcome_amended_witness :
    (validatedUpdate tiePredC6 tiePredC6).was_correct =
      some (wasCorrectSpecAmended tiePredC6) ∧
    (validatedUpdate tiePredC6 tiePredC6).margin_of_error =
      some |((tiePredC6.home_score : ℚ) - (tiePredC6.away_score : ℚ)) -
        tiePredC6.predicted_spread.getD 0| :=
  ⟨((validation_outcome_amended tiePredC6 tiePredC6).2 rfl).2.1,
   ((validation_outcome_amended tiePredC6 tiePredC6).2 rfl).2.2⟩

/-- C9: when the feature pipeline fails entirely, generatePrediction returns
the fallback record instead of propagating the failure: its confidence lies
in the neutral 65–85 band, its spread is a small randomized value in
[−5, 5], it is tagged Fallback Statistical Model with model_version 1.0.0
(distinct from the 2.0.0 of the full engine), and it carries no features
payload, so the weight-tuning query (features IS NOT NULL) excludes it. -/
theorem fallback_prediction (game : GameInfo) (r1 r2 : ℚ)
    (h10 : 0 ≤ r1) (h11 : r1 < 1) (h20 : 0 ≤ r2) (h21 : r2 < 1) :
    generatePrediction game none r1 r2 = generateFallbackPrediction game r1 r2 ∧
    65 ≤ (generateFallbackPrediction game r1 r2).confidence_score ∧
    (generateFallbackPrediction game r1 r2).confidence_score ≤ 85 ∧
    -5 ≤ (generateFallbackPrediction game r1 r2).predicted_spread ∧
    (generateFallbackPrediction game r1 r2).predicted_spread ≤ 5 ∧
    (generateFallbackPrediction game r1 r2).ai_model =
      "Fallback Statistical Model" ∧
    (generateFallbackPrediction game r1 r2).model_version = "1.0.0" ∧
    (generateFallbackPrediction game r1 r2).model_version ≠ "2.0.0" ∧
    (generateFallbackPrediction game r1 r2).features = none ∧
    tuningEligible (generateFallbackPrediction game r1 r2) = false := by
  have hconf1 : (0 : ℤ) ≤ jsFloor (r1 * 20) := by
    rw [jsFloor]
    exact Int.floor_nonneg.mpr (by positivity)
  have hconf2 : jsFloor (r1 * 20) ≤ 19 := by
    rw [jsFloor]
    have : (⌊r1 * 20⌋ : ℤ) < 20 := by
      rw [Int.floor_lt]
      calc r1 * 20 < 1 * 20 := by
            exact mul_lt_mul_of_pos_right h11 (by norm_num)
        _ = 20 := by norm_num
    omega
  have hsp1 : (-50 : ℤ) ≤ jsFloor ((r2 * 10 - 5) * 10 + 1/2) := by
    rw [jsFloor]
    apply Int.le_floor.mpr
    push_cast
    nlinarith
  have hsp2 : jsFloor ((r2 * 10 - 5) * 10 + 1/2) ≤ 50 := by
    rw [jsFloor]
    have : (⌊(r2 * 10 - 5) * 10 + 1/2⌋ : ℤ) < 51 := by
      rw [Int.floor_lt]
      push_cast
      nlinarith
    omega
  refine ⟨rfl, ?_, ?_, ?_, ?_, rfl, rfl, by simp [generateFallbackPrediction],
    rfl, rfl⟩
  · simp only [generateFallbackPrediction]
    have : (0 : ℚ) ≤ (jsFloor (r1 * 20) : ℚ) := by exact_mod_cast hconf1
    linarith
  · simp only [generateFallbackPrediction]
    have : ((jsFloor (r1 * 20) : ℤ) : ℚ) ≤ 19 := by exact_mod_cast hconf2
    linarith
  · simp only [generateFallbackPrediction, round1]
    have : (-50 : ℚ) ≤ ((jsFloor ((r2 * 10 - 5) * 10 + 1/2) : ℤ) : ℚ) := by
      exact_mod_cast hsp1
    linarith
  · simp only [generateFallbackPrediction, round1]
    have : ((jsFloor ((r2 * 10 - 5) * 10 + 1/2) : ℤ) : ℚ) ≤ 50 := by
      exact_mod_cast hsp2
    linarith

/-- C9 witness: the fallback at both random draws equal to one half. -/
theorem fallback_prediction_witness :
    generatePrediction exGame none (1/2) (1/2) =
      generateFallbackPrediction exGame (1/2) (1/2) ∧
    65 ≤ (generateFallbackPrediction exGame (1/2) (1/2)).confidence_score ∧
    (generateFallbackPrediction exGame (1/2) (1/2)).features = none := by
  obtain ⟨he, hc1, hc2, hs1, hs2, hai, hmv, hne, hf, ht⟩ :=
    fallback_prediction exGame (1/2) (1/2) (by norm_num) (by norm_num)
      (by norm_num) (by norm_num)
  exact ⟨he, hc1, hf⟩

/-- Sum of a list of rationals all equal to zero. -/
theorem sum_eq_zero_of_all_zero {l : List ℚ} (h : ∀ x ∈ l, x = 0) :
    l.sum = 0 := by
  induction l with
  | nil => rfl
  | cons x xs ih =>
    rw [List.sum_cons, h x (List.mem_cons_self x xs),
      ih (fun y hy => h y (List.mem_cons_of_mem x hy)), add_zero]

/-- C1 counterexample: three factors with accuracy 50 each.  The emitted
weights are 0.306, 0.358 and 0.337 — every one above the 0.30 bound — and
their sum is 1.001, not 1.0 (the toFixed(3) rounding after normalization). -/
theorem tuner_weights_counterexample :
    emittedWeights accC1 = some
      [(Factor.team_form, 153/500), (Factor.player_stats, 179/500),
       (Factor.injuries, 337/1000)] ∧
    (((emittedWeights accC1).getD []).map Prod.snd).sum = 1001/1000 ∧
    ¬((((emittedWeights accC1).getD []).map Prod.snd).sum = 1 ∧
      ∀ w ∈ ((emittedWeights accC1).getD []).map Prod.snd,
        2/100 ≤ w ∧ w ≤ 30/100) := by
  have he : emittedWeights accC1 = some
      [(Factor.team_form, 153/500), (Factor.player_stats, 179/500),
       (Factor.injuries, 337/1000)] := by
    norm_num [emittedWeights, accC1, allFactors, presentFactors, preNormSum,
      preNormWeight, totalAccuracy, currentWeights, round3, jsFloor, jsMin,
      jsMax, List.filter]
  refine ⟨he, ?_, ?_⟩
  · rw [he]
    norm_num
  · rintro ⟨hsum, -⟩
    rw [he] at hsum
    norm_num at hsum

/-- C1 (amended): for every accuracy distribution with positive total
accuracy, each clamped pre-normalization weight lies within [0.02, 0.30],
and the normalized weights sum to exactly 1 before the final toFixed(3)
rounding.  (Normalization can push individual emitted weights outside the
bounds, and the 3-decimal rounding can move the emitted sum off 1.0; with
zero total accuracy the JS computation degenerates to NaN weights.) -/
theorem tuner_weights_amended (acc : Factor → Option ℚ)
    (h : 0 < totalAccuracy acc) :
    (∀ f, (acc f).isSome = true →
      2/100 ≤ preNormWeight acc f ∧ preNormWeight acc f ≤ 30/100) ∧
    ((presentFactors acc).map
      (fun f => preNormWeight acc f / preNormSum acc)).sum = 1 := by
  have hbound : ∀ f, (acc f).isSome = true →
      2/100 ≤ preNormWeight acc f ∧ preNormWeight acc f ≤ 30/100 := by
    intro f hf
    obtain ⟨a, ha⟩ := Option.isSome_iff_exists.mp hf
    simp only [preNormWeight, ha]
    unfold jsMax jsMin
    split_ifs <;> constructor <;> linarith
  refine ⟨hbound, ?_⟩
  have hnonempty : presentFactors acc ≠ [] := by
    intro hempty
    unfold presentFactors at hempty
    have hzero : totalAccuracy acc = 0 := by
      unfold totalAccuracy
      apply sum_eq_zero_of_all_zero
      intro x hx
      obtain ⟨f, hf, rfl⟩ := List.mem_map.mp hx
      have hnone := List.filter_eq_nil_iff.mp hempty f hf
      cases hacc : acc f with
      | none => rfl
      | some a => rw [hacc] at hnone; simp at hnone
    rw [hzero] at h
    exact lt_irrefl 0 h
  have hpos : 0 < preNormSum acc := by
    unfold preNormSum
    apply List.sum_pos
    · intro x hx
      obtain ⟨f, hf, rfl⟩ := List.mem_map.mp hx
      have hf2 : (acc f).isSome = true :=
        (List.mem_filter.mp hf).2
      calc (0:ℚ) < 2/100 := by norm_num
        _ ≤ preNormWeight acc f := (hbound f hf2).1
    · intro hmapnil
      exact hnonempty (List.map_eq_nil_iff.mp hmapnil)
  have hfun : (fun f => preNormWeight acc f / preNormSum acc) =
      (fun f => preNormWeight acc f * (preNormSum acc)⁻¹) :=
    funext (fun f => div_eq_mul_inv _ _)
  rw [hfun, List.sum_map_mul_right]
  exact mul_inv_cancel₀ (ne_of_gt hpos)

/-- C1 witness: the amended statement evaluated at the three-factor
accuracy-50 distribution. -/
theorem tuner_weights_amended_witness :
    (0:ℚ) < totalAccuracy accC1 ∧
    ((presentFactors accC1).map
      (fun f => preNormWeight accC1 f / preNormSum accC1)).sum = 1 := by
  have hpos : (0:ℚ) < totalAccuracy accC1 := by
    norm_num [totalAccuracy, accC1, allFactors]
  exact ⟨hpos, (tuner_weights_amended accC1 hpos).2⟩

/-- The validation loop over the selected predictions acts on the stored
rows pointwise: folding applyValidation equals mapping the cumulative
row-level update. -/
theorem applyValidation_foldl (sel preds : List PredRow) :
    sel.foldl applyValidation preds = preds.map (rowAfter sel) := by
  induction sel generalizing preds with
  | nil =>
    have hid : rowAfter ([] : List PredRow) = id := funext fun q => rfl
    rw [List.foldl_nil, hid, List.map_id]
  | cons p sel ih =>
    rw [List.foldl_cons, ih]
    show (preds.map (validatedUpdate p)).map (rowAfter sel) =
      preds.map (rowAfter (p :: sel))
    rw [List.map_map]
    rfl

/-- validatedUpdate never changes the id, game status or recency of a row. -/
theorem validatedUpdate_fields (p q : PredRow) :
    (validatedUpdate p q).id = q.id ∧
    (validatedUpdate p q).game_status = q.game_status ∧
    (validatedUpdate p q).recent = q.recent := by
  unfold validatedUpdate
  split_ifs <;> exact ⟨rfl, rfl, rfl⟩

/-- validatedUpdate keeps actual_outcome set once it is set. -/
theorem validatedUpdate_outcome (p q : PredRow)
    (h : (q.actual_outcome).isSome = true) :
    ((validatedUpdate p q).actual_outcome).isSome = true := by
  unfold validatedUpdate
  split_ifs
  · rfl
  · exact h

/-- The update for a prediction always sets actual_outcome on the row with
the matching id. -/
theorem validatedUpdate_outcome_hit (p q : PredRow) (h : q.id = p.id) :
    ((validatedUpdate p q).actual_outcome).isSome = true := by
  unfold validatedUpdate
  rw [if_pos h]
  rfl

/-- The cumulative row update never changes id, game status or recency. -/
theorem rowAfter_fields (sel : List PredRow) (q : PredRow) :
    (rowAfter sel q).id = q.id ∧
    (rowAfter sel q).game_status = q.game_status ∧
    (rowAfter sel q).recent = q.recent := by
  induction sel generalizing q with
  | nil => exact ⟨rfl, rfl, rfl⟩
  | cons p sel ih =>
    have hstep := validatedUpdate_fields p q
    have h2 := ih (validatedUpdate p q)
    exact ⟨(h2.1).trans hstep.1, (h2.2.1).trans hstep.2.1,
      (h2.2.2).trans hstep.2.2⟩

/-- The cumulative row update keeps actual_outcome set once it is set. -/
theorem rowAfter_outcome (sel : List PredRow) (q : PredRow)
    (h : (q.actual_outcome).isSome = true) :
    ((rowAfter sel q).actual_outcome).isSome = true := by
  induction sel generalizing q with
  | nil => exact h
  | cons p sel ih => exact ih _ (validatedUpdate_outcome p q h)

/-- A row whose id occurs among the selected predictions carries a set
actual_outcome after the loop. -/
theorem rowAfter_outcome_hit (sel : List PredRow) (q : PredRow)
    (h : ∃ p ∈ sel, q.id = p.id) :
    ((rowAfter sel q).actual_outcome).isSome = true := by
  induction sel generalizing q with
  | nil =>
    obtain ⟨p, hp, _⟩ := h
    exact absurd hp (List.not_mem_nil p)
  | cons pp sel ih =>
    obtain ⟨p, hp, hid⟩ := h
    rcases List.mem_cons.mp hp with rfl | hmem
    · exact rowAfter_outcome sel _ (validatedUpdate_outcome_hit p q hid)
    · exact ih (validatedUpdate pp q)
        ⟨p, hmem, ((validatedUpdate_fields pp q).1).trans hid⟩

/-- After a run that selected every pending prediction (at most 100 of
them), no stored prediction is eligible any more. -/
theorem second_filter_nil (s : ValidatorState)
    (h : (s.predictions.filter eligibleForValidation).length ≤ 100) :
    (runPredictionValidation s).1.predictions.filter eligibleForValidation
      = [] := by
  have hsel : (s.predictions.filter eligibleForValidation).take 100 =
      s.predictions.filter eligibleForValidation := List.take_of_length_le h
  show ((((s.predictions.filter eligibleForValidation).take 100).foldl
    applyValidation s.predictions).filter eligibleForValidation) = []
  rw [hsel, applyValidation_foldl]
  apply List.filter_eq_nil_iff.mpr
  intro q' hq'
  obtain ⟨q, hq, rfl⟩ := List.mem_map.mp hq'
  intro helig
  have hfields := rowAfter_fields (s.predictions.filter eligibleForValidation) q
  simp only [eligibleForValidation, Bool.and_eq_true, Bool.or_eq_true,
    decide_eq_true_eq, Option.isNone_iff_eq_none] at helig
  by_cases hout : (q.actual_outcome).isSome = true
  · have hsome := rowAfter_outcome (s.predictions.filter eligibleForValidation)
      q hout
    rw [helig.1.2] at hsome
    simp at hsome
  · have hqout : q.actual_outcome = none := Option.not_isSome_iff_eq_none.mp
      (by simpa using hout)
    have hqelig : eligibleForValidation q = true := by
      simp only [eligibleForValidation, Bool.and_eq_true, Bool.or_eq_true,
        decide_eq_true_eq, Option.isNone_iff_eq_none]
      rw [hfields.2.1, hfields.2.2] at helig
      exact ⟨⟨helig.1.1, hqout⟩, helig.2⟩
    have hqsel : q ∈ s.predictions.filter eligibleForValidation :=
      List.mem_filter.mpr ⟨hq, hqelig⟩
    have hsome := rowAfter_outcome_hit
      (s.predictions.filter eligibleForValidation) q ⟨q, hqsel, rfl⟩
    rw [helig.1.2] at hsome
    simp at hsome

set_option maxRecDepth 100000 in
/-- C2 counterexample: with 101 pending predictions on completed games the
first run validates only the batch limit of 100; the second run over the
same completed-game set validates one more prediction and grows the
prediction_accuracy table from 100 to 101 rows, changing the aggregate
totals. -/
theorem validator_batch_counterexample :
    state101.predictions.length = 101 ∧
    (runPredictionValidation state101).2.validated = 100 ∧
    (runPredictionValidation (runPredictionValidation state101).1).2.validated
      = 1 ∧
    (runPredictionValidation state101).1.accuracy.length = 100 ∧
    (runPredictionValidation
      (runPredictionValidation state101).1).1.accuracy.length = 101 := by
  decide

/-- C2 (amended): provided the pending set fits in one batch (at most 100
eligible predictions), a second validation run over the same completed-game
set validates zero predictions, appends nothing to the accuracy table, and
leaves every aggregate accuracy statistic unchanged — each prediction
annotated by the first run is skipped, not re-validated. -/
theorem validator_idempotent_amended (s : ValidatorState)
    (h : (s.predictions.filter eligibleForValidation).length ≤ 100) :
    (runPredictionValidation (runPredictionValidation s).1).2.validated = 0 ∧
    (runPredictionValidation (runPredictionValidation s).1).1.accuracy =
      (runPredictionValidation s).1.accuracy ∧
    aggregateStats (runPredictionValidation (runPredictionValidation s).1).1 =
      aggregateStats (runPredictionValidation s).1 := by
  have hnil := second_filter_nil s h
  have hsel2 : (((runPredictionValidation s).1.predictions.filter
      eligibleForValidation).take 100) = [] := by
    rw [hnil]
    rfl
  have hacc : (runPredictionValidation (runPredictionValidation s).1).1.accuracy
      = (runPredictionValidation s).1.accuracy := by
    show (runPredictionValidation s).1.accuracy ++
      ((((runPredictionValidation s).1.predictions.filter
        eligibleForValidation).take 100).map accuracyRowFor) =
      (runPredictionValidation s).1.accuracy
    rw [hsel2]
    exact List.append_nil _
  refine ⟨?_, hacc, ?_⟩
  · show ((((runPredictionValidation s).1.predictions.filter
      eligibleForValidation).take 100)).length = 0
    rw [hsel2]
    rfl
  · unfold aggregateStats
    rw [hacc]

/-- C2 witness: a state with one pending prediction, validated by the first
run and skipped by the second. -/
theorem validator_idempotent_amended_witness :
    (state1.predictions.filter eligibleForValidation).length ≤ 100 ∧
    (runPredictionValidation (runPredictionValidation state1).1).2.validated
      = 0 :=
  ⟨by decide, (validator_idempotent_amended state1 (by decide)).1⟩
